import Mathlib

/-!
Verification of the self-healing-code-agent core against its specification.

This file shallowly embeds the parts of the repository that the claims
C1..C10 are about:

* `src/services/patch_applier.py` — the unified-diff parser and applier
  (`_parse_patch_hunks`, `_apply_patch_to_string`), the backup machinery
  (`_create_backup`, `_restore_backup`, `rollback`, `apply`, `dry_apply`).
* `src/agents/critic_agent.py` — `_quick_checks`, `_validate_evaluation`,
  `_create_fallback_evaluation`, `evaluate_patch`.
* `src/agents/manager_agent.py` — `_repair_iteration` and the `heal` loop.
* `src/integrations/git_auto_healer.py` — the approval race between the
  auto-push timer callback and a manual `approve_and_push`, modelled as an
  interleaving of atomic steps on the shared `pending_approvals` state.

Python strings are modelled as Lean `String`; `str.split('\n')` and
`'\n'.join` are re-implemented structurally (`splitNl`, `joinNl`) so that
all definitions evaluate inside the kernel.  Python `del list[i]` and
`list.insert(i, x)` are modelled with Python's exact semantics, including
negative indices (`pyDelete`, `pyInsert`): `del` raises `IndexError`
(modelled as `none`) when the index is out of range, while `insert` clamps.
Python floats (confidence, coverage) are modelled as `ℚ`.
-/

/-- Python `str.split('\n')` on the character list: always returns at least
one piece; a trailing newline yields a trailing empty piece. -/
def splitNl : List Char → List (List Char)
  | [] => [[]]
  | c :: rest =>
    if c = '\n' then [] :: splitNl rest
    else
      match splitNl rest with
      | [] => [[c]]
      | l :: ls => (c :: l) :: ls

/-- Python `str.split('\n')` on a `String`. -/
def splitNlStr (s : String) : List String :=
  (splitNl s.data).map List.asString

/-- Python `'\n'.join(lines)`. -/
def joinNl : List String → String
  | [] => ""
  | [l] => l
  | l :: ls => l ++ "\n" ++ joinNl ls

/-- Does the character list start with the given literal? (Models Python
`str.startswith`.) -/
def startsWithCL : List Char → List Char → Bool
  | [], _ => true
  | _ :: _, [] => false
  | p :: ps, c :: cs => p = c && startsWithCL ps cs

/-- Consume a maximal run of ASCII digits, returning them and the rest.
Models the greedy regex fragment `\d*`. -/
def takeDigits : List Char → List Char × List Char
  | [] => ([], [])
  | c :: cs =>
    if c.isDigit then
      match takeDigits cs with
      | (ds, rest) => (c :: ds, rest)
    else ([], c :: cs)

/-- Numeric value of a digit list (the regex groups are decimal). -/
def digitsToNat (ds : List Char) : Nat :=
  ds.foldl (fun acc c => acc * 10 + (c.toNat - '0'.toNat)) 0

/-- After the digits of a number group, the regex allows `,?\d*`; consume it.
Since the preceding `\d+` was greedy, a digit can only follow a comma. -/
def skipCommaDigits (cs : List Char) : List Char :=
  match cs with
  | ',' :: rest => (takeDigits rest).2
  | _ => cs

/-- Model of `re.match(r'@@ -(\d+),?\d* \+(\d+),?\d* @@', line)` from
`PatchApplier._parse_patch_hunks`: on success returns group(2), the
new-file start line, which is the only group the code uses
(`hunk_match.group(2)`).  `re.match` anchors at the start of the line and
leaves the remainder unconstrained. -/
def parseHunkHeader (line : String) : Option Nat :=
  match line.data with
  | '@' :: '@' :: ' ' :: '-' :: rest =>
    match takeDigits rest with
    | ([], _) => none
    | (_ :: _, rest1) =>
      match skipCommaDigits rest1 with
      | ' ' :: '+' :: rest2 =>
        match takeDigits rest2 with
        | ([], _) => none
        | (ds2, rest3) =>
          match skipCommaDigits rest3 with
          | ' ' :: '@' :: '@' :: _ => some (digitsToNat ds2)
          | _ => none
      | _ => none
  | _ => none

/-- One parsed change line of a hunk: tag from the leading marker
character, `line` is the text after the marker (Python `line[1:]`). -/
inductive ChangeKind where
  | add
  | remove
  | ctx
  deriving DecidableEq, Repr

structure Change where
  kind : ChangeKind
  line : String
  deriving DecidableEq, Repr

/-- A hunk as built by `_parse_patch_hunks`: `start_line` is group(2) of the
header (the + side start), `changes` the recognized body lines in order. -/
structure Hunk where
  start_line : Nat
  changes : List Change
  deriving DecidableEq, Repr

/-- Classify one body line exactly as the `elif` chain at
`patch_applier.py:244-258` does; `none` means the line is silently skipped. -/
def classifyBodyLine (l : String) : Option Change :=
  if startsWithCL ['+'] l.data && !startsWithCL ['+', '+', '+'] l.data then
    some ⟨ChangeKind.add, List.asString (l.data.drop 1)⟩
  else if startsWithCL ['-'] l.data && !startsWithCL ['-', '-', '-'] l.data then
    some ⟨ChangeKind.remove, List.asString (l.data.drop 1)⟩
  else if startsWithCL [' '] l.data then
    some ⟨ChangeKind.ctx, List.asString (l.data.drop 1)⟩
  else
    none

/-- Parser state of the line loop in `_parse_patch_hunks`:
`current` is `current_hunk`, `hunks` the accumulated list. -/
structure ParseSt where
  current : Option Hunk
  hunks : List Hunk
  deriving DecidableEq, Repr

/-- One iteration of the `for line in patch.split('\n')` loop of
`_parse_patch_hunks`.  A header line closes the current hunk and opens a
new one; body lines are classified only when a hunk is open; anything else
is skipped without error. -/
def parseLine (st : ParseSt) (line : String) : ParseSt :=
  match parseHunkHeader line with
  | some n =>
    { current := some ⟨n, []⟩
      hunks := match st.current with
               | some h => st.hunks ++ [h]
               | none => st.hunks }
  | none =>
    match st.current with
    | none => st
    | some h =>
      match classifyBodyLine line with
      | some c => { st with current := some ⟨h.start_line, h.changes ++ [c]⟩ }
      | none => st

/-- `_parse_patch_hunks` over an explicit list of lines. -/
def parseHunksOfLines (lines : List String) : List Hunk :=
  let st := lines.foldl parseLine ⟨none, []⟩
  match st.current with
  | some h => st.hunks ++ [h]
  | none => st.hunks

/-- `PatchApplier._parse_patch_hunks` (patch_applier.py:222-263).  Total:
the Python code has no failure path. -/
def parsePatchHunks (patch : String) : List Hunk :=
  parseHunksOfLines (splitNlStr patch)

/-- Python `del lst[i]` for a possibly negative index: `IndexError`
(modelled as `none`) unless `-len <= i < len`; a negative index counts from
the end. -/
def pyDelete {α : Type} (l : List α) (i : Int) : Option (List α) :=
  let n : Int := l.length
  if i < -n ∨ n ≤ i then none
  else
    let j := (if i < 0 then i + n else i).toNat
    some (l.take j ++ l.drop (j + 1))

/-- Python `lst.insert(i, x)` for a possibly negative index: clamps into
range, never fails. -/
def pyInsert {α : Type} (l : List α) (i : Int) (x : α) : List α :=
  let n : Int := l.length
  let j := (if i < 0 then max 0 (i + n) else min i n).toNat
  l.take j ++ x :: l.drop j

/-- The inner `for change in hunk['changes']` loop of
`_apply_patch_to_string` (patch_applier.py:209-218).  `cursor` is the local
`start_line`; the returned `Int` is the net `offset` contribution of the
hunk (each add +1, each remove −1, reads by later hunks only).  `none`
models the `IndexError` a remove raises on an out-of-range cursor, which
the callers catch. -/
def applyChanges : List Change → List String → Int → Option (List String × Int × Int)
  | [], lines, cursor => some (lines, cursor, 0)
  | c :: cs, lines, cursor =>
    match c.kind with
    | ChangeKind.remove =>
      match pyDelete lines cursor with
      | none => none
      | some lines' =>
        match applyChanges cs lines' cursor with
        | none => none
        | some (ls, cur, off) => some (ls, cur, off - 1)
    | ChangeKind.add =>
      match applyChanges cs (pyInsert lines cursor c.line) (cursor + 1) with
      | none => none
      | some (ls, cur, off) => some (ls, cur, off + 1)
    | ChangeKind.ctx =>
      applyChanges cs lines (cursor + 1)

/-- The outer hunk loop of `_apply_patch_to_string` (patch_applier.py:205-218):
per hunk the cursor starts at `start_line - 1 + offset`. -/
def applyHunks : List Hunk → List String → Int → Option (List String)
  | [], lines, _ => some lines
  | h :: hs, lines, offset =>
    match applyChanges h.changes lines ((h.start_line : Int) - 1 + offset) with
    | none => none
    | some (lines', _, delta) => applyHunks hs lines' (offset + delta)

/-- `PatchApplier._apply_patch_to_string` (patch_applier.py:191-220):
split on newlines, apply every parsed hunk, re-join.  `none` models the
`IndexError` escape; there is no conflict detection of any kind. -/
def applyPatchToString (original patch : String) : Option String :=
  (applyHunks (parsePatchHunks patch) (splitNlStr original) 0).map joinNl

/-- C6: applying the patch `@@ -2,1 +2,3 @@\n def f():\n+    x = 1\n+    y = 2\n`
to the content `"a\ndef f():\nb\n"` produces exactly
`"a\ndef f():\n    x = 1\n    y = 2\nb\n"`. -/
theorem c6_patch_applies_as_specified :
    applyPatchToString "a\ndef f():\nb\n"
      "@@ -2,1 +2,3 @@\n def f():\n+    x = 1\n+    y = 2\n" =
    some "a\ndef f():\n    x = 1\n    y = 2\nb\n" := by decide

/-- C7 counterexample: re-applying the §8 scenario patch to the result of a
successful application neither fails nor is a no-op — the applier is purely
position-based and has no conflict detection, so the second application
succeeds and inserts the added lines a second time. -/
theorem c7_counterexample :
    (applyPatchToString "a\ndef f():\n    x = 1\n    y = 2\nb\n"
        "@@ -2,1 +2,3 @@\n def f():\n+    x = 1\n+    y = 2\n").isSome = true ∧
    applyPatchToString "a\ndef f():\n    x = 1\n    y = 2\nb\n"
        "@@ -2,1 +2,3 @@\n def f():\n+    x = 1\n+    y = 2\n" ≠
      some "a\ndef f():\n    x = 1\n    y = 2\nb\n" := by decide

/-- C7 amended: `_apply_patch_to_string` performs no idempotence or conflict
check; re-applying a patch that inserted lines succeeds again with a doubled
effect.  Concretely, the second application of the §8 scenario patch yields
content with the two added lines duplicated. -/
theorem c7_amended_double_apply :
    applyPatchToString "a\ndef f():\n    x = 1\n    y = 2\nb\n"
      "@@ -2,1 +2,3 @@\n def f():\n+    x = 1\n+    y = 2\n" =
    some "a\ndef f():\n    x = 1\n    y = 2\n    x = 1\n    y = 2\nb\n" := by decide

/-- C8 counterexample: `_parse_patch_hunks` never fails.  A hunk body line
with no leading marker (`garbage`) is silently dropped and a Patch is still
returned, and an unparsable hunk header is ignored (its body lines are
dropped because no hunk is open) — instead of the `MalformedPatch` error the
claim requires. -/
theorem c8_counterexample :
    parsePatchHunks "@@ -1,0 +1,1 @@\ngarbage\n+x\n" =
      [⟨1, [⟨ChangeKind.add, "x"⟩]⟩] ∧
    parsePatchHunks "@@ -a,b +c,d @@\n+z\n" = [] := by decide

/-- C8 amended: parsing is total and silently skips irrecognizable lines: a
line that is neither a parsable hunk header nor carries a recognized marker
contributes nothing; deleting it from the input leaves the parse unchanged. -/
theorem c8_amended_skip_unmarked (pre post : List String) (l : String)
    (h1 : parseHunkHeader l = none) (h2 : classifyBodyLine l = none) :
    parseHunksOfLines (pre ++ l :: post) = parseHunksOfLines (pre ++ post) := by
  have hstep : ∀ st : ParseSt, parseLine st l = st := by
    intro st
    cases st with
    | mk cur hks => cases cur <;> simp [parseLine, h1, h2]
  unfold parseHunksOfLines
  rw [List.foldl_append, List.foldl_append, List.foldl_cons, hstep]

/-- C8 amended, witness: the skip theorem applied to the concrete `garbage`
line inside a real hunk body. -/
theorem c8_amended_skip_unmarked_witness :
    parseHunkHeader "garbage" = none ∧ classifyBodyLine "garbage" = none ∧
    parseHunksOfLines (["@@ -1,0 +1,1 @@"] ++ "garbage" :: ["+x"]) =
      parseHunksOfLines (["@@ -1,0 +1,1 @@"] ++ ["+x"]) :=
  ⟨by decide, by decide,
    c8_amended_skip_unmarked ["@@ -1,0 +1,1 @@"] ["+x"] "garbage"
      (by decide) (by decide)⟩

/-- Patch metadata as read by the critic: the only field the quick checks
and auto-merge rule consult is `metadata['lines_changed']`. -/
structure PatchMeta where
  lines_changed : Nat
  deriving DecidableEq, Repr

/-- Test results dict produced by the tester collaborator
(`RunTests -> TestResults{total, passed, failed, ...}`); the critic reads
`total`, `passed` and `failed`. -/
structure TestResults where
  total : Nat
  passed : Nat
  failed : Nat
  deriving DecidableEq, Repr

/-- The raw JSON dict returned by `client.generate_json` in
`CriticAgent.evaluate_patch`; every field is optional because
`_validate_evaluation` reads each with a `.get(..., default)`.
Python floats are modelled as `ℚ`. -/
structure LlmOutput where
  verdict : Option String
  confidence : Option ℚ
  rationale : Option String
  issues_found : Option (List String)
  suggestions : Option (List String)
  security_concerns : Option (List String)
  test_coverage : Option ℚ
  deriving DecidableEq, Repr

/-- The evaluation dict the critic returns (critic_agent.py SYSTEM_PROMPT
shape): all fields present. -/
structure Evaluation where
  verdict : String
  confidence : ℚ
  rationale : String
  issues_found : List String
  suggestions : List String
  security_concerns : List String
  test_coverage : ℚ
  should_auto_merge : Bool
  deriving DecidableEq, Repr

/-- Configuration options the modelled code reads:
`healing.max_attempts`, `healing.max_patch_lines`,
`healing.auto_merge_threshold`, and the injected language-syntax oracle
standing for Python's `ast.parse` succeeding (spec §4.3 treats it as an
external collaborator). -/
structure Config where
  max_attempts : Nat
  max_patch_lines : Nat
  auto_merge_threshold : ℚ
  astOk : String → Bool

/-- `CriticAgent._quick_checks` (critic_agent.py:68-118): returns `some`
evaluation to short-circuit the LLM call, `none` to continue.  Order of the
checks matters: failed tests, then patch size, then zero executed tests. -/
def quickChecks (meta : PatchMeta) (tr : TestResults) (cfg : Config) :
    Option Evaluation :=
  if 0 < tr.failed then
    some { verdict := "RETRY"
           confidence := 9/10
           rationale := "Tests failed: " ++ toString tr.failed ++ " out of " ++
             toString tr.total
           issues_found := ["Test failures"]
           suggestions := ["Review test failures and adjust patch"]
           security_concerns := []
           test_coverage := (tr.passed : ℚ) / ((max tr.total 1 : Nat) : ℚ)
           should_auto_merge := false }
  else if cfg.max_patch_lines < meta.lines_changed then
    some { verdict := "ESCALATE"
           confidence := 4/5
           rationale := "Patch too large: " ++ toString meta.lines_changed ++
             " lines (max: " ++ toString cfg.max_patch_lines ++ ")"
           issues_found := ["Patch exceeds size limit"]
           suggestions := ["Break into smaller patches or review manually"]
           security_concerns := []
           test_coverage := 0
           should_auto_merge := false }
  else if tr.total = 0 then
    some { verdict := "PASS"
           confidence := 7/10
           rationale := "Patch applied successfully (no tests available)"
           issues_found := []
           suggestions := ["Add tests for better validation"]
           security_concerns := []
           test_coverage := 0
           should_auto_merge := false }
  else
    none

/-- Verdict sanitation of `_validate_evaluation` (critic_agent.py:144-146). -/
def normVerdict (v : String) : String :=
  if v = "PASS" ∨ v = "RETRY" ∨ v = "ESCALATE" then v else "PASS"

/-- `CriticAgent._validate_evaluation` (critic_agent.py:120-163): fills
defaults, recomputes coverage from the test results when any test ran, and
recomputes `should_auto_merge` from the five-way conjunction at lines
155-161. -/
def validateEvaluation (e : LlmOutput) (meta : PatchMeta) (tr : TestResults)
    (cfg : Config) : Evaluation :=
  let verdict := normVerdict (e.verdict.getD "PASS")
  let confidence := e.confidence.getD (1/2)
  let sec := e.security_concerns.getD []
  let cov := if 0 < tr.total then (tr.passed : ℚ) / (tr.total : ℚ)
             else e.test_coverage.getD 0
  { verdict := verdict
    confidence := confidence
    rationale := e.rationale.getD "No rationale provided"
    issues_found := e.issues_found.getD []
    suggestions := e.suggestions.getD []
    security_concerns := sec
    test_coverage := cov
    should_auto_merge :=
      decide (verdict = "PASS") && decide (cfg.auto_merge_threshold ≤ confidence) &&
      decide ((4 : ℚ)/5 < cov) && sec.isEmpty && decide (meta.lines_changed ≤ 10) }

/-- `CriticAgent._create_fallback_evaluation` (critic_agent.py:165-182). -/
def fallbackEvaluation (tr : TestResults) : Evaluation :=
  { verdict := if tr.failed = 0 then "PASS" else "RETRY"
    confidence := 3/5
    rationale := "Evaluation generated from fallback logic"
    issues_found := if tr.failed = 0 then [] else ["LLM evaluation unavailable"]
    suggestions := if tr.failed = 0 then [] else ["Review patch manually"]
    security_concerns := []
    test_coverage := (tr.passed : ℚ) / ((max tr.total 1 : Nat) : ℚ)
    should_auto_merge := false }

/-- `CriticAgent.evaluate_patch` (critic_agent.py:35-66).  `llm` is the
outcome of the external `generate_json` call: an exception (`Except.error`),
a non-dict value (`Except.ok none`, routed to the fallback by
`_validate_evaluation`'s isinstance check), or a dict. -/
def evaluatePatch (meta : PatchMeta) (tr : TestResults) (cfg : Config)
    (llm : Except String (Option LlmOutput)) : Evaluation :=
  match quickChecks meta tr cfg with
  | some v => v
  | none =>
    match llm with
    | Except.error _ => fallbackEvaluation tr
    | Except.ok none => fallbackEvaluation tr
    | Except.ok (some e) => validateEvaluation e meta tr cfg

/-- C10: every evaluation the critic returns with `should_auto_merge = true`
required a non-zero number of executed tests (so `total == 0` never
auto-merges), a PASS verdict, confidence at or above the configured
threshold, test coverage strictly above 0.8, no security concerns, and at
most 10 changed lines. -/
theorem c10_auto_merge_guard (meta : PatchMeta) (tr : TestResults) (cfg : Config)
    (llm : Except String (Option LlmOutput))
    (h : (evaluatePatch meta tr cfg llm).should_auto_merge = true) :
    0 < tr.total ∧
    (evaluatePatch meta tr cfg llm).verdict = "PASS" ∧
    cfg.auto_merge_threshold ≤ (evaluatePatch meta tr cfg llm).confidence ∧
    (4 : ℚ)/5 < (evaluatePatch meta tr cfg llm).test_coverage ∧
    (evaluatePatch meta tr cfg llm).security_concerns = [] ∧
    meta.lines_changed ≤ 10 := by
  by_cases h1 : 0 < tr.failed
  · simp [evaluatePatch, quickChecks, h1] at h
  by_cases h2 : cfg.max_patch_lines < meta.lines_changed
  · simp [evaluatePatch, quickChecks, h1, h2] at h
  by_cases h3 : tr.total = 0
  · simp [evaluatePatch, quickChecks, h1, h2, h3] at h
  have htot : 0 < tr.total := Nat.pos_of_ne_zero h3
  have hq : quickChecks meta tr cfg = none := by
    simp [quickChecks, h1, h2, h3]
  simp only [evaluatePatch, hq] at h ⊢
  cases llm with
  | error e => simp [fallbackEvaluation] at h
  | ok o =>
    cases o with
    | none => simp [fallbackEvaluation] at h
    | some e =>
      have hs : (validateEvaluation e meta tr cfg).should_auto_merge =
          (decide ((validateEvaluation e meta tr cfg).verdict = "PASS") &&
           decide (cfg.auto_merge_threshold ≤
             (validateEvaluation e meta tr cfg).confidence) &&
           decide ((4 : ℚ)/5 < (validateEvaluation e meta tr cfg).test_coverage) &&
           (validateEvaluation e meta tr cfg).security_concerns.isEmpty &&
           decide (meta.lines_changed ≤ 10)) := rfl
      rw [hs] at h
      simp only [Bool.and_eq_true, decide_eq_true_eq, List.isEmpty_iff] at h
      exact ⟨htot, h.1.1.1.1, h.1.1.1.2, h.1.1.2, h.1.2, h.2⟩

/-- C10 witness: a concrete input satisfying the auto-merge guard — 5
changed lines, 10 of 10 tests passed, threshold 0.9, LLM verdict PASS with
confidence 0.95 and no security concerns — does auto-merge, and the
theorem's conclusions hold for it. -/
theorem c10_auto_merge_guard_witness :
    0 < (TestResults.mk 10 10 0).total ∧
    (evaluatePatch ⟨5⟩ ⟨10, 10, 0⟩ ⟨3, 25, 9/10, fun _ => true⟩
      (Except.ok (some ⟨some "PASS", some (95/100), none, none, none, some [],
        none⟩))).verdict = "PASS" ∧
    (Config.mk 3 25 (9/10) (fun _ => true)).auto_merge_threshold ≤
      (evaluatePatch ⟨5⟩ ⟨10, 10, 0⟩ ⟨3, 25, 9/10, fun _ => true⟩
        (Except.ok (some ⟨some "PASS", some (95/100), none, none, none, some [],
          none⟩))).confidence ∧
    (4 : ℚ)/5 < (evaluatePatch ⟨5⟩ ⟨10, 10, 0⟩ ⟨3, 25, 9/10, fun _ => true⟩
      (Except.ok (some ⟨some "PASS", some (95/100), none, none, none, some [],
        none⟩))).test_coverage ∧
    (evaluatePatch ⟨5⟩ ⟨10, 10, 0⟩ ⟨3, 25, 9/10, fun _ => true⟩
      (Except.ok (some ⟨some "PASS", some (95/100), none, none, none, some [],
        none⟩))).security_concerns = [] ∧
    (PatchMeta.mk 5).lines_changed ≤ 10 :=
  c10_auto_merge_guard ⟨5⟩ ⟨10, 10, 0⟩ ⟨3, 25, 9/10, fun _ => true⟩
    (Except.ok (some ⟨some "PASS", some (95/100), none, none, none, some [], none⟩))
    (by
      simp only [evaluatePatch, quickChecks, validateEvaluation, normVerdict,
        Option.getD, Bool.and_eq_true, decide_eq_true_eq]
      norm_num)

/-- Filesystem-visible events of the model, in chronological order.  They
record exactly the disk writes and collaborator invocations the claims
reason about. -/
inductive Event where
  | backupCreated (id : Nat) (path : String)
  | fileWritten (path : String) (content : String)
  | fileRestored (path : String)
  | restoreFailed (path : String)
  | testsRan
  | committed
  deriving DecidableEq, Repr

/-- Combined state of the working tree, the backup directory, and the
`PatchApplier` instance.  `files` is the working tree (path to content);
`backupFiles` the backup directory — each entry
`(id, original_file, content)` models one timestamped `.backup` file with
its `.meta` sidecar, `id` standing for the unique timestamped name;
`current_backup` is the single mutable `self.current_backup` field of
`PatchApplier`; `trace` logs events. -/
structure PAState where
  files : List (String × String)
  backupFiles : List (Nat × String × String)
  current_backup : Option Nat
  nextId : Nat
  trace : List Event
  deriving DecidableEq, Repr

/-- Association-list lookup by path (first match wins, like a filesystem). -/
def lookupStr : List (String × String) → String → Option String
  | [], _ => none
  | (k, v) :: rest, key => if k = key then some v else lookupStr rest key

/-- Association-list update/insert by path. -/
def setAssoc : List (String × String) → String → String → List (String × String)
  | [], k, v => [(k, v)]
  | (k', v') :: rest, k, v =>
    if k' = k then (k, v) :: rest else (k', v') :: setAssoc rest k v

/-- Read a working-tree file; `none` models the `IOError`/`FileNotFoundError`
of a missing file, and doubles as the `os.path.exists` test. -/
def readFile (st : PAState) (p : String) : Option String :=
  lookupStr st.files p

/-- Lookup of a backup file (plus its `.meta` metadata) by id. -/
def lookupBackup : List (Nat × String × String) → Nat → Option (String × String)
  | [], _ => none
  | (i, p, c) :: rest, j => if i = j then some (p, c) else lookupBackup rest j

/-- `PatchApplier._create_backup` (patch_applier.py:265-286): copies the
target into the backup directory under a fresh timestamped name (modelled
by `nextId`) and writes the `.meta` file recording the original path.
There is no check for an already-live backup: it succeeds whenever the
source file exists.  `none` models the exception `shutil.copy2` raises for
a missing source. -/
def createBackup (st : PAState) (path : String) : Option (PAState × Nat) :=
  match readFile st path with
  | none => none
  | some content =>
    some ({ st with
              backupFiles := st.backupFiles ++ [(st.nextId, path, content)]
              nextId := st.nextId + 1
              trace := st.trace ++ [Event.backupCreated st.nextId path] },
          st.nextId)

/-- `PatchApplier._restore_backup` (patch_applier.py:288-292):
`shutil.copy2(backup_path, target_file)`.  `restoreOk = false` models an
I/O error during the copy (spec §7's `RestoreFailure`); it leaves the
target untouched and reports failure to the caller. -/
def restoreBackup (restoreOk : Bool) (st : PAState) (id : Nat) (target : String) :
    PAState × Bool :=
  match lookupBackup st.backupFiles id with
  | none => (st, false)
  | some (_, content) =>
    if restoreOk then
      ({ st with files := setAssoc st.files target content
                 trace := st.trace ++ [Event.fileRestored target] }, true)
    else
      ({ st with trace := st.trace ++ [Event.restoreFailed target] }, false)

/-- `PatchApplier.rollback` (patch_applier.py:96-124): reads the `.meta` of
`current_backup` to recover the target path, restores, and clears the
pointer; every exception is caught and turned into `success: False` — and
on a failed restore the pointer is left in place (line 112 runs only on
success). -/
def paRollback (restoreOk : Bool) (st : PAState) : PAState × Bool :=
  match st.current_backup with
  | none => (st, false)
  | some id =>
    match lookupBackup st.backupFiles id with
    | none => (st, false)
    | some (orig, _) =>
      match restoreBackup restoreOk st id orig with
      | (st', true) => ({ st' with current_backup := none }, true)
      | (st', false) => (st', false)

/-- `PatchApplier.apply` (patch_applier.py:60-94): creates a backup first
(unconditionally), then reads the target, patches in memory, writes the
result, and only then sets `current_backup`.  On a patching exception the
backup is copied back over the (unchanged) target and the exception is
re-raised, modelled by the `false` flag. -/
def paApply (st : PAState) (patch target : String) : PAState × Bool :=
  match createBackup st target with
  | none => (st, false)
  | some (st1, id) =>
    match readFile st1 target with
    | none => (st1, false)
    | some content =>
      match applyPatchToString content patch with
      | none => ((restoreBackup true st1 id target).1, false)
      | some newContent =>
        ({ st1 with files := setAssoc st1.files target newContent
                    current_backup := some id
                    trace := st1.trace ++ [Event.fileWritten target newContent] },
         true)

/-- `PatchApplier.commit` (patch_applier.py:126-189) as consumed by the
manager: git commit modelled as succeeding, after which `current_backup`
is cleared (line 170). -/
def paCommit (st : PAState) : PAState × Bool :=
  ({ st with current_backup := none, trace := st.trace ++ [Event.committed] }, true)

/-- Result dict of `dry_apply`. -/
structure DryResult where
  success : Bool
  new_content : Option String
  error : Option String
  deriving DecidableEq, Repr

/-- `PatchApplier.dry_apply` (patch_applier.py:22-58): reads the target,
patches in memory, syntax-checks the result with the oracle (`ast.parse`).
It performs no write and creates no backup — it does not touch the state. -/
def dryApply (astOk : String → Bool) (st : PAState) (patch target : String) :
    DryResult :=
  match readFile st target with
  | none => ⟨false, none, some "read failed"⟩
  | some content =>
    match applyPatchToString content patch with
    | none => ⟨false, none, some "patch failed"⟩
    | some nc =>
      if astOk nc then ⟨true, some nc, none⟩
      else ⟨false, some nc, some "syntax error"⟩

/-- C3 counterexample: two consecutive `apply` calls for the same target
path, with no intervening restore or discard, BOTH succeed — the second
snapshot does not fail with `BackupConflict`; it creates a second backup
file for the same path (two live backups) and overwrites the
`current_backup` pointer, orphaning the first backup. -/
theorem c3_counterexample :
    (paApply (PAState.mk [("t.py", "a\ndef f():\nb\n")] [] none 0 [])
      "@@ -2,1 +2,3 @@\n def f():\n+    x = 1\n+    y = 2\n" "t.py").2 = true ∧
    (paApply (paApply (PAState.mk [("t.py", "a\ndef f():\nb\n")] [] none 0 [])
        "@@ -2,1 +2,3 @@\n def f():\n+    x = 1\n+    y = 2\n" "t.py").1
      "@@ -2,1 +2,3 @@\n def f():\n+    x = 1\n+    y = 2\n" "t.py").2 = true ∧
    (paApply (paApply (PAState.mk [("t.py", "a\ndef f():\nb\n")] [] none 0 [])
        "@@ -2,1 +2,3 @@\n def f():\n+    x = 1\n+    y = 2\n" "t.py").1
      "@@ -2,1 +2,3 @@\n def f():\n+    x = 1\n+    y = 2\n" "t.py").1.current_backup
      = some 1 ∧
    (paApply (paApply (PAState.mk [("t.py", "a\ndef f():\nb\n")] [] none 0 [])
        "@@ -2,1 +2,3 @@\n def f():\n+    x = 1\n+    y = 2\n" "t.py").1
      "@@ -2,1 +2,3 @@\n def f():\n+    x = 1\n+    y = 2\n" "t.py").1.backupFiles.map
        (fun b => b.2.1) = ["t.py", "t.py"] := by decide

/-- C3 amended: snapshot creation never checks for a live backup.  Whenever
the target is readable and the patch applies, `apply` succeeds — regardless
of any live backup — appending a fresh backup file for the path and
overwriting the single `current_backup` pointer. -/
theorem c3_amended_snapshot_overwrites (st : PAState) (patch target c nc : String)
    (hread : readFile st target = some c)
    (happly : applyPatchToString c patch = some nc) :
    (paApply st patch target).2 = true ∧
    (paApply st patch target).1.current_backup = some st.nextId ∧
    (paApply st patch target).1.backupFiles =
      st.backupFiles ++ [(st.nextId, target, c)] := by
  simp only [paApply, createBackup, readFile] at *
  simp [hread, happly]

/-- C3 amended, witness: a state with a live backup for `t.py`
(`current_backup = some 0`) accepts another `apply` for `t.py`. -/
theorem c3_amended_snapshot_overwrites_witness :
    readFile (PAState.mk [("t.py", "a\ndef f():\nb\n")] [(0, "t.py", "a\nb\n")]
        (some 0) 1 []) "t.py" = some "a\ndef f():\nb\n" ∧
    applyPatchToString "a\ndef f():\nb\n"
      "@@ -2,1 +2,3 @@\n def f():\n+    x = 1\n+    y = 2\n" =
      some "a\ndef f():\n    x = 1\n    y = 2\nb\n" ∧
    (paApply (PAState.mk [("t.py", "a\ndef f():\nb\n")] [(0, "t.py", "a\nb\n")]
        (some 0) 1 [])
      "@@ -2,1 +2,3 @@\n def f():\n+    x = 1\n+    y = 2\n" "t.py").2 = true ∧
    (paApply (PAState.mk [("t.py", "a\ndef f():\nb\n")] [(0, "t.py", "a\nb\n")]
        (some 0) 1 [])
      "@@ -2,1 +2,3 @@\n def f():\n+    x = 1\n+    y = 2\n" "t.py").1.current_backup
      = some 1 :=
  ⟨by decide, by decide,
    (c3_amended_snapshot_overwrites
      (PAState.mk [("t.py", "a\ndef f():\nb\n")] [(0, "t.py", "a\nb\n")] (some 0) 1 [])
      "@@ -2,1 +2,3 @@\n def f():\n+    x = 1\n+    y = 2\n" "t.py"
      "a\ndef f():\nb\n" "a\ndef f():\n    x = 1\n    y = 2\nb\n"
      (by decide) (by decide)).1,
    (c3_amended_snapshot_overwrites
      (PAState.mk [("t.py", "a\ndef f():\nb\n")] [(0, "t.py", "a\nb\n")] (some 0) 1 [])
      "@@ -2,1 +2,3 @@\n def f():\n+    x = 1\n+    y = 2\n" "t.py"
      "a\ndef f():\nb\n" "a\ndef f():\n    x = 1\n    y = 2\nb\n"
      (by decide) (by decide)).2.1⟩

/-- Outcome tag of one repair iteration (`result['status']`), plus the
ERROR tag `heal`'s attempt-boundary handler uses (manager_agent.py:144-150). -/
inductive Status where
  | SUCCESS
  | RETRY
  | ESCALATE
  | ERROR
  deriving DecidableEq, Repr

/-- The per-attempt result dict returned by `_repair_iteration` — only the
keys the code writes are modelled, a `none` field standing for an absent
key — plus the two keys (`strategy`, `failure_reason`) `heal` adds to a
RETRY record before appending it (manager_agent.py:137-138).  The nested
`feedback` dict is flattened into `feedback_*` fields.  `duration` and
`patch`/`commit` payloads are omitted: no claim reads them. -/
structure AttemptRecord where
  status : Status
  attempt : Nat
  phase : Option String := none
  error : Option String := none
  evaluation : Option Evaluation := none
  reason : Option String := none
  feedback_issue : Option String := none
  feedback_details : Option String := none
  feedback_suggestion : Option String := none
  feedback_issues : Option (List String) := none
  feedback_suggestions : Option (List String) := none
  auto_merged : Option Bool := none
  requires_approval : Option Bool := none
  strategy : Option String := none
  failure_reason : Option String := none
  deriving DecidableEq, Repr

/-- A repair plan dict, restricted to the fields the manager reads. -/
structure Plan where
  target_file : Option String
  strategy : String
  issue_description : String
  deriving DecidableEq, Repr

/-- The patch dict the fixer returns: unified-diff text plus metadata. -/
structure PatchObj where
  patch : String
  metadata : PatchMeta
  deriving DecidableEq, Repr

/-- Outcomes of the external collaborators during one repair iteration,
plus the modelled I/O behavior of a backup restore: `plan` from the
planner, `patchGen` from the fixer (`Except.error` models a raised
exception), `tests` from the tester, `llm` the critic's `generate_json`
outcome, `restoreOk` whether a `shutil.copy2` during restore succeeds. -/
structure IterEnv where
  plan : Plan
  patchGen : Except String PatchObj
  tests : TestResults
  llm : Except String (Option LlmOutput)
  restoreOk : Bool

/-- `ManagerAgent._repair_iteration` (manager_agent.py:184-417), driven by
the collaborator outcomes in `env`.  Experiment logging and durations are
omitted (they do not touch the working tree or the backup store).  Notes on
fidelity: the plan check at 201 treats a missing or empty `target_file` or
strategy `'none'` as invalid; the `file_reading` branch at 239-253 is
unreachable in the model because the only modelled read failure is a
missing file, which the `os.path.exists` check at 226 already catches; a
patching exception inside `apply` (re-raised at line 94) escapes
`_repair_iteration` — it is modelled as the ERROR record `heal`'s
`except` clause at 144-150 would append. -/
def repairIteration (cfg : Config) (env : IterEnv) (attempt : Nat)
    (st : PAState) : PAState × AttemptRecord :=
  if env.plan.target_file.getD "" = "" ∨ env.plan.strategy = "none" then
    (st, { status := Status.RETRY, attempt := attempt, phase := some "planning",
           error := some "Could not create valid repair plan",
           feedback_issue := some "Planning failed",
           feedback_suggestion := some "Try different analysis approach" })
  else
    let target := env.plan.target_file.getD ""
    match readFile st target with
    | none =>
      (st, { status := Status.RETRY, attempt := attempt,
             phase := some "file_validation",
             error := some ("File not found: " ++ target),
             feedback_issue := some "Target file invalid",
             feedback_suggestion := some "Verify file path in bug report" })
    | some _ =>
      match env.patchGen with
      | Except.error e =>
        (st, { status := Status.RETRY, attempt := attempt,
               phase := some "patch_generation", error := some e,
               feedback_issue := some "Patch generation failed",
               feedback_details := some e,
               feedback_suggestion := some "Try simpler fix strategy" })
      | Except.ok po =>
        let dry := dryApply cfg.astOk st po.patch target
        if dry.success = false then
          (st, { status := Status.RETRY, attempt := attempt,
                 phase := some "validation", error := dry.error,
                 feedback_issue := some "Patch failed validation",
                 feedback_details := dry.error,
                 feedback_suggestion := some "Generate syntactically correct patch" })
        else
          match paApply st po.patch target with
          | (st1, false) =>
            (st1, { status := Status.ERROR, attempt := attempt,
                    error := some "Failed to apply patch" })
          | (st1, true) =>
            let st2 := { st1 with trace := st1.trace ++ [Event.testsRan] }
            let ev := evaluatePatch po.metadata env.tests cfg env.llm
            if ev.verdict = "PASS" then
              if ev.should_auto_merge then
                ((paCommit st2).1,
                 { status := Status.SUCCESS, attempt := attempt,
                   evaluation := some ev, auto_merged := some true })
              else
                (st2, { status := Status.SUCCESS, attempt := attempt,
                        evaluation := some ev, requires_approval := some true,
                        auto_merged := some false })
            else if ev.verdict = "RETRY" then
              ((paRollback env.restoreOk st2).1,
               { status := Status.RETRY, attempt := attempt,
                 evaluation := some ev,
                 feedback_issues := some ev.issues_found,
                 feedback_suggestions := some ev.suggestions })
            else
              ((paRollback env.restoreOk st2).1,
               { status := Status.ESCALATE, attempt := attempt,
                 evaluation := some ev, reason := some ev.rationale })

theorem lookupStr_setAssoc (l : List (String × String)) (k v : String) :
    lookupStr (setAssoc l k v) k = some v := by
  induction l with
  | nil => simp [setAssoc, lookupStr]
  | cons hd tl ih =>
    obtain ⟨k', v'⟩ := hd
    by_cases h : k' = k
    · simp [setAssoc, lookupStr, h]
    · simp [setAssoc, lookupStr, h, ih]

theorem lookupBackup_append_fresh (l : List (Nat × String × String)) (i : Nat)
    (p c : String) (h : ∀ b ∈ l, b.1 ≠ i) :
    lookupBackup (l ++ [(i, p, c)]) i = some (p, c) := by
  induction l with
  | nil => simp [lookupBackup]
  | cons hd tl ih =>
    obtain ⟨j, q, d⟩ := hd
    have hj : j ≠ i := h (j, q, d) (List.mem_cons_self _ _)
    simp only [List.cons_append, lookupBackup, if_neg hj]
    exact ih fun b hb => h b (List.mem_cons_of_mem _ hb)

/-- C2: when the dry validation of the generated patch does not succeed
(structural apply failure or the patched content failing the syntax
oracle), the iteration returns a RETRY record with phase `validation` and
the state is completely unchanged: no file is written and no backup is
created. -/
theorem c2_dry_validation_no_mutation (cfg : Config) (env : IterEnv)
    (attempt : Nat) (st : PAState) (po : PatchObj) (c : String)
    (hplan : ¬(env.plan.target_file.getD "" = "" ∨ env.plan.strategy = "none"))
    (hgen : env.patchGen = Except.ok po)
    (hread : readFile st (env.plan.target_file.getD "") = some c)
    (hdry : (dryApply cfg.astOk st po.patch
      (env.plan.target_file.getD "")).success = false) :
    repairIteration cfg env attempt st =
      (st, { status := Status.RETRY, attempt := attempt,
             phase := some "validation",
             error := (dryApply cfg.astOk st po.patch
               (env.plan.target_file.getD "")).error,
             feedback_issue := some "Patch failed validation",
             feedback_details := (dryApply cfg.astOk st po.patch
               (env.plan.target_file.getD "")).error,
             feedback_suggestion := some "Generate syntactically correct patch" }) := by
  simp [repairIteration, hplan, hgen, hread, hdry]

/-- C2 witness: a syntax oracle that rejects the patched content makes the
dry run fail; the iteration ends as RETRY/validation with the state
untouched. -/
theorem c2_dry_validation_no_mutation_witness :
    (dryApply (fun _ => false)
      (PAState.mk [("t.py", "a\ndef f():\nb\n")] [] none 0 [])
      "@@ -2,1 +2,3 @@\n def f():\n+    x = 1\n+    y = 2\n" "t.py").success
      = false ∧
    (repairIteration ⟨3, 25, 9/10, fun _ => false⟩
      ⟨⟨some "t.py", "fix", "bug"⟩,
        Except.ok ⟨"@@ -2,1 +2,3 @@\n def f():\n+    x = 1\n+    y = 2\n", ⟨3⟩⟩,
        ⟨1, 1, 0⟩, Except.error "no llm", true⟩ 1
      (PAState.mk [("t.py", "a\ndef f():\nb\n")] [] none 0 [])).1 =
      PAState.mk [("t.py", "a\ndef f():\nb\n")] [] none 0 [] ∧
    (repairIteration ⟨3, 25, 9/10, fun _ => false⟩
      ⟨⟨some "t.py", "fix", "bug"⟩,
        Except.ok ⟨"@@ -2,1 +2,3 @@\n def f():\n+    x = 1\n+    y = 2\n", ⟨3⟩⟩,
        ⟨1, 1, 0⟩, Except.error "no llm", true⟩ 1
      (PAState.mk [("t.py", "a\ndef f():\nb\n")] [] none 0 [])).2.status =
      Status.RETRY ∧
    (repairIteration ⟨3, 25, 9/10, fun _ => false⟩
      ⟨⟨some "t.py", "fix", "bug"⟩,
        Except.ok ⟨"@@ -2,1 +2,3 @@\n def f():\n+    x = 1\n+    y = 2\n", ⟨3⟩⟩,
        ⟨1, 1, 0⟩, Except.error "no llm", true⟩ 1
      (PAState.mk [("t.py", "a\ndef f():\nb\n")] [] none 0 [])).2.phase =
      some "validation" := by
  have h := c2_dry_validation_no_mutation ⟨3, 25, 9/10, fun _ => false⟩
    ⟨⟨some "t.py", "fix", "bug"⟩,
      Except.ok ⟨"@@ -2,1 +2,3 @@\n def f():\n+    x = 1\n+    y = 2\n", ⟨3⟩⟩,
      ⟨1, 1, 0⟩, Except.error "no llm", true⟩ 1
    (PAState.mk [("t.py", "a\ndef f():\nb\n")] [] none 0 [])
    ⟨"@@ -2,1 +2,3 @@\n def f():\n+    x = 1\n+    y = 2\n", ⟨3⟩⟩
    "a\ndef f():\nb\n" (by decide) rfl (by decide) (by decide)
  refine ⟨by decide, ?_, ?_, ?_⟩
  · rw [h]
  · rw [h]
  · rw [h]

/-- C4 amended: a failed backup restore during rollback is never surfaced
in the attempt's recorded outcome: the attempt record `_repair_iteration`
returns is identical whether the restore succeeded or failed (the failure
is only logged; the RETRY/ESCALATE records at manager_agent.py:373-393 are
built purely from the evaluation, discarding `rollback()`'s result dict,
and the exception-path rollback at 400-403 is wrapped in
`try/except: pass`), while the loop simply continues. -/
theorem c4_amended_record_ignores_restore (cfg : Config) (p : Plan)
    (g : Except String PatchObj) (t : TestResults)
    (l : Except String (Option LlmOutput)) (a : Nat) (st : PAState) :
    (repairIteration cfg ⟨p, g, t, l, false⟩ a st).2 =
    (repairIteration cfg ⟨p, g, t, l, true⟩ a st).2 := by
  by_cases h1 : p.target_file.getD "" = "" ∨ p.strategy = "none"
  · simp [repairIteration, h1]
  · cases hr : readFile st (p.target_file.getD "") with
    | none => simp [repairIteration, h1, hr]
    | some c =>
      cases g with
      | error e => simp [repairIteration, h1, hr]
      | ok po =>
        by_cases hd : (dryApply cfg.astOk st po.patch
            (p.target_file.getD "")).success = false
        · simp [repairIteration, h1, hr, hd]
        · cases ha : paApply st po.patch (p.target_file.getD "") with
          | mk st1 ok =>
            cases ok
            · simp [repairIteration, h1, hr, hd, ha]
            · by_cases hv : (evaluatePatch po.metadata t cfg l).verdict = "PASS"
              · simp [repairIteration, h1, hr, hd, ha, hv]
              · by_cases hw : (evaluatePatch po.metadata t cfg l).verdict = "RETRY"
                · simp [repairIteration, h1, hr, hd, ha, hv, hw]
                · simp [repairIteration, h1, hr, hd, ha, hv, hw]

/-- C4 counterexample: concrete run in which the rollback's restore fails
(`restoreOk = false`): the attempt record is exactly the one of the
successful-restore run — the recorded outcome carries no trace of the
`RestoreFailure` (it only reaches the log), the backup pointer stays set,
and the record is an ordinary RETRY. -/
theorem c4_counterexample :
    (repairIteration ⟨3, 25, 9/10, fun _ => true⟩
      ⟨⟨some "t.py", "fix", "bug"⟩,
        Except.ok ⟨"@@ -2,1 +2,3 @@\n def f():\n+    x = 1\n+    y = 2\n", ⟨3⟩⟩,
        ⟨1, 0, 1⟩, Except.error "no llm", false⟩ 1
      (PAState.mk [("t.py", "a\ndef f():\nb\n")] [] none 0 [])).2 =
    (repairIteration ⟨3, 25, 9/10, fun _ => true⟩
      ⟨⟨some "t.py", "fix", "bug"⟩,
        Except.ok ⟨"@@ -2,1 +2,3 @@\n def f():\n+    x = 1\n+    y = 2\n", ⟨3⟩⟩,
        ⟨1, 0, 1⟩, Except.error "no llm", true⟩ 1
      (PAState.mk [("t.py", "a\ndef f():\nb\n")] [] none 0 [])).2 ∧
    (repairIteration ⟨3, 25, 9/10, fun _ => true⟩
      ⟨⟨some "t.py", "fix", "bug"⟩,
        Except.ok ⟨"@@ -2,1 +2,3 @@\n def f():\n+    x = 1\n+    y = 2\n", ⟨3⟩⟩,
        ⟨1, 0, 1⟩, Except.error "no llm", false⟩ 1
      (PAState.mk [("t.py", "a\ndef f():\nb\n")] [] none 0 [])).2.status =
      Status.RETRY ∧
    (repairIteration ⟨3, 25, 9/10, fun _ => true⟩
      ⟨⟨some "t.py", "fix", "bug"⟩,
        Except.ok ⟨"@@ -2,1 +2,3 @@\n def f():\n+    x = 1\n+    y = 2\n", ⟨3⟩⟩,
        ⟨1, 0, 1⟩, Except.error "no llm", false⟩ 1
      (PAState.mk [("t.py", "a\ndef f():\nb\n")] [] none 0 [])).1.trace =
      [Event.backupCreated 0 "t.py",
       Event.fileWritten "t.py" "a\ndef f():\n    x = 1\n    y = 2\nb\n",
       Event.testsRan, Event.restoreFailed "t.py"] ∧
    (repairIteration ⟨3, 25, 9/10, fun _ => true⟩
      ⟨⟨some "t.py", "fix", "bug"⟩,
        Except.ok ⟨"@@ -2,1 +2,3 @@\n def f():\n+    x = 1\n+    y = 2\n", ⟨3⟩⟩,
        ⟨1, 0, 1⟩, Except.error "no llm", false⟩ 1
      (PAState.mk [("t.py", "a\ndef f():\nb\n")] [] none 0 [])).1.current_backup =
      some 0 :=
  ⟨rfl, by decide, by decide, by decide⟩

/-- C9 counterexample: a patch whose `lines_changed` (30) exceeds
`max_patch_lines` (25) is nonetheless applied to disk and the tests are
run; only afterwards does the critic's quick check escalate.  The trace
shows backup, disk write and test run all happening before the restore
that follows the ESCALATE verdict — refuting "no apply (and hence no disk
write, no test run) is performed". -/
theorem c9_counterexample :
    (repairIteration ⟨3, 25, 9/10, fun _ => true⟩
      ⟨⟨some "t.py", "fix", "bug"⟩,
        Except.ok ⟨"@@ -2,1 +2,3 @@\n def f():\n+    x = 1\n+    y = 2\n", ⟨30⟩⟩,
        ⟨1, 1, 0⟩, Except.error "no llm", true⟩ 1
      (PAState.mk [("t.py", "a\ndef f():\nb\n")] [] none 0 [])).2.status =
      Status.ESCALATE ∧
    (repairIteration ⟨3, 25, 9/10, fun _ => true⟩
      ⟨⟨some "t.py", "fix", "bug"⟩,
        Except.ok ⟨"@@ -2,1 +2,3 @@\n def f():\n+    x = 1\n+    y = 2\n", ⟨30⟩⟩,
        ⟨1, 1, 0⟩, Except.error "no llm", true⟩ 1
      (PAState.mk [("t.py", "a\ndef f():\nb\n")] [] none 0 [])).1.trace =
      [Event.backupCreated 0 "t.py",
       Event.fileWritten "t.py" "a\ndef f():\n    x = 1\n    y = 2\nb\n",
       Event.testsRan, Event.fileRestored "t.py"] := by
  exact ⟨by decide, by decide⟩

/-- C9 amended: the `maxPatchLines` limit is enforced only inside the
critic's quick checks, i.e. at the evaluation phase: an oversized patch
(with no failing tests, which are checked first) is applied to disk and
tested, then escalated by the quick check without consulting the LLM, and
finally rolled back.  The trace records write and test run before the
restore, and the target file ends restored to its original content. -/
theorem c9_amended_size_check_at_evaluation (cfg : Config) (env : IterEnv)
    (attempt : Nat) (st : PAState) (po : PatchObj) (c nc : String)
    (hplan : ¬(env.plan.target_file.getD "" = "" ∨ env.plan.strategy = "none"))
    (hgen : env.patchGen = Except.ok po)
    (hread : readFile st (env.plan.target_file.getD "") = some c)
    (happly : applyPatchToString c po.patch = some nc)
    (hast : cfg.astOk nc = true)
    (hfailed : env.tests.failed = 0)
    (hsize : cfg.max_patch_lines < po.metadata.lines_changed)
    (hrestore : env.restoreOk = true)
    (hfresh : ∀ b ∈ st.backupFiles, b.1 ≠ st.nextId) :
    (repairIteration cfg env attempt st).2.status = Status.ESCALATE ∧
    (repairIteration cfg env attempt st).2.evaluation =
      quickChecks po.metadata env.tests cfg ∧
    (repairIteration cfg env attempt st).1.trace =
      st.trace ++ [Event.backupCreated st.nextId (env.plan.target_file.getD ""),
        Event.fileWritten (env.plan.target_file.getD "") nc,
        Event.testsRan, Event.fileRestored (env.plan.target_file.getD "")] ∧
    readFile (repairIteration cfg env attempt st).1
      (env.plan.target_file.getD "") = some c := by
  have hq : quickChecks po.metadata env.tests cfg =
      some { verdict := "ESCALATE"
             confidence := 4/5
             rationale := "Patch too large: " ++ toString po.metadata.lines_changed ++
               " lines (max: " ++ toString cfg.max_patch_lines ++ ")"
             issues_found := ["Patch exceeds size limit"]
             suggestions := ["Break into smaller patches or review manually"]
             security_concerns := []
             test_coverage := 0
             should_auto_merge := false } := by
    simp [quickChecks, hfailed, hsize]
  have hev : evaluatePatch po.metadata env.tests cfg env.llm =
      { verdict := "ESCALATE"
        confidence := 4/5
        rationale := "Patch too large: " ++ toString po.metadata.lines_changed ++
          " lines (max: " ++ toString cfg.max_patch_lines ++ ")"
        issues_found := ["Patch exceeds size limit"]
        suggestions := ["Break into smaller patches or review manually"]
        security_concerns := []
        test_coverage := 0
        should_auto_merge := false } := by
    simp [evaluatePatch, hq]
  have hread' : lookupStr st.files (env.plan.target_file.getD "") = some c := hread
  have hlb : lookupBackup (st.backupFiles ++
      [(st.nextId, env.plan.target_file.getD "", c)]) st.nextId =
      some (env.plan.target_file.getD "", c) :=
    lookupBackup_append_fresh st.backupFiles st.nextId _ c hfresh
  simp [repairIteration, hplan, hgen, dryApply, readFile, hread', happly, hast,
    paApply, createBackup, hev, paRollback, restoreBackup, hrestore, hlb,
    lookupStr_setAssoc]
  exact hq.symm

/-- C9 amended, witness: the amended theorem instantiated at the concrete
oversized-patch run of the counterexample scenario. -/
theorem c9_amended_size_check_at_evaluation_witness :
    ¬((Plan.mk (some "t.py") "fix" "bug").target_file.getD "" = "" ∨
      (Plan.mk (some "t.py") "fix" "bug").strategy = "none") ∧
    (25 : Nat) < 30 ∧
    (repairIteration ⟨3, 25, 9/10, fun _ => true⟩
      ⟨⟨some "t.py", "fix", "bug"⟩,
        Except.ok ⟨"@@ -2,1 +2,3 @@\n def f():\n+    x = 1\n+    y = 2\n", ⟨30⟩⟩,
        ⟨1, 1, 0⟩, Except.error "no llm", true⟩ 2
      (PAState.mk [("t.py", "a\ndef f():\nb\n")] [] none 0 [])).2.status =
      Status.ESCALATE ∧
    readFile (repairIteration ⟨3, 25, 9/10, fun _ => true⟩
      ⟨⟨some "t.py", "fix", "bug"⟩,
        Except.ok ⟨"@@ -2,1 +2,3 @@\n def f():\n+    x = 1\n+    y = 2\n", ⟨30⟩⟩,
        ⟨1, 1, 0⟩, Except.error "no llm", true⟩ 2
      (PAState.mk [("t.py", "a\ndef f():\nb\n")] [] none 0 [])).1 "t.py" =
      some "a\ndef f():\nb\n" := by
  have h := c9_amended_size_check_at_evaluation ⟨3, 25, 9/10, fun _ => true⟩
    ⟨⟨some "t.py", "fix", "bug"⟩,
      Except.ok ⟨"@@ -2,1 +2,3 @@\n def f():\n+    x = 1\n+    y = 2\n", ⟨30⟩⟩,
      ⟨1, 1, 0⟩, Except.error "no llm", true⟩ 2
    (PAState.mk [("t.py", "a\ndef f():\nb\n")] [] none 0 [])
    ⟨"@@ -2,1 +2,3 @@\n def f():\n+    x = 1\n+    y = 2\n", ⟨30⟩⟩
    "a\ndef f():\nb\n" "a\ndef f():\n    x = 1\n    y = 2\nb\n"
    (by decide) rfl (by decide) (by decide) rfl rfl (by decide) rfl
    (by intro b hb; simp at hb)
  exact ⟨by decide, by decide, h.1, h.2.2.2⟩

/-- Terminal result of a healing run: the status string `heal` passes to
`_complete_run`, the appended attempt records (`previous_attempts`), and —
for SUCCESS/ESCALATED — the final iteration's record (the `details`). -/
structure RunResult where
  status : String
  attempts : List AttemptRecord
  final : Option AttemptRecord
  deriving DecidableEq, Repr

/-- The RETRY-path enrichment `heal` performs before appending a record
(manager_agent.py:137-138): `strategy` is always "unknown" because `plan`
is never bound in `heal`'s own scope (the `'plan' in locals()` test is
always false there), and `failure_reason` falls back from `error` to
`feedback['issue']` to "Unknown". -/
def healAugment (r : AttemptRecord) : AttemptRecord :=
  { r with strategy := some "unknown"
           failure_reason := some (r.error.getD (r.feedback_issue.getD "Unknown")) }

/-- The `while attempt < self.max_attempts` loop of `ManagerAgent.heal`
(manager_agent.py:105-156), by fuel (`max_attempts - attempt + 1` at
entry): SUCCESS and ESCALATE end the run; RETRY records are enriched and
appended; an ERROR record (exception caught at the attempt boundary,
144-150) is appended as-is; running out of fuel is the
MAX_ATTEMPTS_REACHED terminal of lines 152-156. -/
def healLoop (cfg : Config) (envs : Nat → IterEnv) :
    Nat → Nat → PAState → List AttemptRecord → PAState × RunResult
  | 0, _, st, acc => (st, ⟨"MAX_ATTEMPTS_REACHED", acc, none⟩)
  | n + 1, attempt, st, acc =>
    match repairIteration cfg (envs attempt) attempt st with
    | (st', r) =>
      match r.status with
      | Status.SUCCESS => (st', ⟨"SUCCESS", acc, some r⟩)
      | Status.ESCALATE => (st', ⟨"ESCALATED", acc, some r⟩)
      | Status.ERROR => healLoop cfg envs n (attempt + 1) st' (acc ++ [r])
      | Status.RETRY => healLoop cfg envs n (attempt + 1) st' (acc ++ [healAugment r])

/-- `ManagerAgent.heal` (manager_agent.py:54-163) after the analysis phase:
`bugs` is the bug report's bug list (an empty list short-circuits to
NO_BUGS_FOUND at line 87), `envs` gives the collaborator outcomes for each
attempt number.  Learning system, notifications and experiment logging are
omitted: they neither touch the working tree or backups nor influence the
loop. -/
def heal (cfg : Config) (envs : Nat → IterEnv) (bugs : List String)
    (st : PAState) : PAState × RunResult :=
  if bugs = [] then (st, ⟨"NO_BUGS_FOUND", [], none⟩)
  else healLoop cfg envs cfg.max_attempts 1 st []

theorem healLoop_retry_step (cfg : Config) (envs : Nat → IterEnv) (n attempt : Nat)
    (st : PAState) (acc : List AttemptRecord) (st' : PAState) (r : AttemptRecord)
    (h : repairIteration cfg (envs attempt) attempt st = (st', r))
    (hr : r.status = Status.RETRY) :
    healLoop cfg envs (n + 1) attempt st acc =
      healLoop cfg envs n (attempt + 1) st' (acc ++ [healAugment r]) := by
  simp only [healLoop, h, hr]

/-- One always-RETRY iteration: with a valid plan, a generated patch that
dry-applies cleanly, and a tester reporting a failing test (which makes the
critic's first quick check return verdict RETRY), the iteration snapshots,
writes, runs tests, then restores — returning the state to the original
content — and produces a RETRY record carrying the quick-check
evaluation. -/
theorem c5_iter (cfg : Config) (env : IterEnv) (a : Nat) (st : PAState)
    (po : PatchObj) (t c nc : String)
    (hplan : ¬(env.plan.target_file.getD "" = "" ∨ env.plan.strategy = "none"))
    (htarget : env.plan.target_file.getD "" = t)
    (hgen : env.patchGen = Except.ok po)
    (hread : readFile st t = some c)
    (happly : applyPatchToString c po.patch = some nc)
    (hast : cfg.astOk nc = true)
    (hfailed : 0 < env.tests.failed)
    (hrestore : env.restoreOk = true)
    (hfresh : ∀ b ∈ st.backupFiles, b.1 ≠ st.nextId) :
    repairIteration cfg env a st =
      ({ files := setAssoc (setAssoc st.files t nc) t c
         backupFiles := st.backupFiles ++ [(st.nextId, t, c)]
         current_backup := none
         nextId := st.nextId + 1
         trace := st.trace ++ [Event.backupCreated st.nextId t,
           Event.fileWritten t nc, Event.testsRan, Event.fileRestored t] },
       { status := Status.RETRY, attempt := a,
         evaluation := some
           { verdict := "RETRY"
             confidence := 9/10
             rationale := "Tests failed: " ++ toString env.tests.failed ++
               " out of " ++ toString env.tests.total
             issues_found := ["Test failures"]
             suggestions := ["Review test failures and adjust patch"]
             security_concerns := []
             test_coverage := (env.tests.passed : ℚ) /
               ((max env.tests.total 1 : Nat) : ℚ)
             should_auto_merge := false }
         feedback_issues := some ["Test failures"]
         feedback_suggestions := some ["Review test failures and adjust patch"] }) := by
  have hq : evaluatePatch po.metadata env.tests cfg env.llm =
      { verdict := "RETRY"
        confidence := 9/10
        rationale := "Tests failed: " ++ toString env.tests.failed ++
          " out of " ++ toString env.tests.total
        issues_found := ["Test failures"]
        suggestions := ["Review test failures and adjust patch"]
        security_concerns := []
        test_coverage := (env.tests.passed : ℚ) /
          ((max env.tests.total 1 : Nat) : ℚ)
        should_auto_merge := false } := by
    simp [evaluatePatch, quickChecks, hfailed]
  have hread' : lookupStr st.files t = some c := hread
  have hlb : lookupBackup (st.backupFiles ++ [(st.nextId, t, c)]) st.nextId =
      some (t, c) :=
    lookupBackup_append_fresh st.backupFiles st.nextId t c hfresh
  rw [htarget] at hplan
  push_neg at hplan
  simp [repairIteration, hplan, htarget, hgen, dryApply, readFile, hread',
    happly, hast, paApply, createBackup, hq, paRollback, restoreBackup,
    hrestore, hlb]


/-- The RETRY record as it sits in `previous_attempts` after `heal`'s
enrichment, for an attempt whose critic verdict came from the failing-test
quick check. -/
def c5Record (tr : TestResults) (attempt : Nat) : AttemptRecord :=
  { status := Status.RETRY
    attempt := attempt
    evaluation := some
      { verdict := "RETRY"
        confidence := 9/10
        rationale := "Tests failed: " ++ toString tr.failed ++
          " out of " ++ toString tr.total
        issues_found := ["Test failures"]
        suggestions := ["Review test failures and adjust patch"]
        security_concerns := []
        test_coverage := (tr.passed : ℚ) / ((max tr.total 1 : Nat) : ℚ)
        should_auto_merge := false }
    feedback_issues := some ["Test failures"]
    feedback_suggestions := some ["Review test failures and adjust patch"]
    strategy := some "unknown"
    failure_reason := some "Unknown" }

/-- One always-RETRY pass of the heal loop, with the state given
componentwise: consumes one unit of fuel, appends the enriched RETRY
record, and leaves the files restored to the original content with the
backup consumed and four more trace events. -/
theorem c5_step (cfg : Config) (env : IterEnv) (m k attempt : Nat)
    (files : List (String × String)) (bs : List (Nat × String × String))
    (cb : Option Nat) (n : Nat) (tr : List Event)
    (acc : List AttemptRecord) (po : PatchObj) (t c nc : String)
    (hm : m = k + 1)
    (hplan : ¬(env.plan.target_file.getD "" = "" ∨ env.plan.strategy = "none"))
    (htarget : env.plan.target_file.getD "" = t)
    (hgen : env.patchGen = Except.ok po)
    (hread : lookupStr files t = some c)
    (happly : applyPatchToString c po.patch = some nc)
    (hast : cfg.astOk nc = true)
    (hfailed : 0 < env.tests.failed)
    (hrestore : env.restoreOk = true)
    (hfresh : ∀ b ∈ bs, b.1 ≠ n) :
    healLoop cfg (fun _ => env) m attempt (PAState.mk files bs cb n tr) acc =
      healLoop cfg (fun _ => env) k (attempt + 1)
        (PAState.mk (setAssoc (setAssoc files t nc) t c) (bs ++ [(n, t, c)])
          none (n + 1)
          (tr ++ [Event.backupCreated n t, Event.fileWritten t nc,
            Event.testsRan, Event.fileRestored t]))
        (acc ++ [c5Record env.tests attempt]) := by
  subst hm
  exact healLoop_retry_step cfg (fun _ => env) k attempt
    (PAState.mk files bs cb n tr) acc _ _
    (c5_iter cfg env attempt (PAState.mk files bs cb n tr) po t c nc hplan
      htarget hgen hread happly hast hfailed hrestore hfresh) rfl

/-- C5: with `maxAttempts = 3` and collaborators that always yield a RETRY
outcome (a tester reporting a failing test, hence the critic's quick-check
RETRY verdict, on a patch that dry-applies cleanly), the run terminates as
MAX_ATTEMPTS_REACHED (the code's Exhausted terminal) with exactly 3 attempt
records, all RETRY; each attempt's disk write is followed by a backup
restore before the next attempt begins (see the trace), and the target
file's content at the end equals its content at the start. -/
theorem c5_retry_exhaustion (cfg : Config) (env : IterEnv) (st : PAState)
    (po : PatchObj) (t c nc : String)
    (hmax : cfg.max_attempts = 3)
    (hplan : ¬(env.plan.target_file.getD "" = "" ∨ env.plan.strategy = "none"))
    (htarget : env.plan.target_file.getD "" = t)
    (hgen : env.patchGen = Except.ok po)
    (hread : readFile st t = some c)
    (happly : applyPatchToString c po.patch = some nc)
    (hast : cfg.astOk nc = true)
    (hfailed : 0 < env.tests.failed)
    (hrestore : env.restoreOk = true)
    (hfresh : ∀ b ∈ st.backupFiles, b.1 < st.nextId) :
    (heal cfg (fun _ => env) ["bug"] st).2.status = "MAX_ATTEMPTS_REACHED" ∧
    (heal cfg (fun _ => env) ["bug"] st).2.attempts.length = 3 ∧
    (∀ r ∈ (heal cfg (fun _ => env) ["bug"] st).2.attempts,
      r.status = Status.RETRY) ∧
    readFile (heal cfg (fun _ => env) ["bug"] st).1 t = some c ∧
    (heal cfg (fun _ => env) ["bug"] st).1.trace = st.trace ++
      [Event.backupCreated st.nextId t, Event.fileWritten t nc,
       Event.testsRan, Event.fileRestored t,
       Event.backupCreated (st.nextId + 1) t, Event.fileWritten t nc,
       Event.testsRan, Event.fileRestored t,
       Event.backupCreated (st.nextId + 1 + 1) t, Event.fileWritten t nc,
       Event.testsRan, Event.fileRestored t] := by
  obtain ⟨files0, bs0, cb0, n0, tr0⟩ := st
  have hread0 : lookupStr files0 t = some c := hread
  have hf0 : ∀ b ∈ bs0, b.1 < n0 := hfresh
  have hb : (["bug"] : List String) ≠ [] := by simp
  have hheal : heal cfg (fun _ => env) ["bug"]
      (PAState.mk files0 bs0 cb0 n0 tr0) =
      healLoop cfg (fun _ => env) 3 1 (PAState.mk files0 bs0 cb0 n0 tr0) [] := by
    rw [heal, if_neg hb, hmax]
  have hf1 : ∀ b ∈ bs0 ++ [(n0, t, c)], b.1 ≠ n0 + 1 := by
    intro b hb'
    simp only [List.mem_append, List.mem_singleton] at hb'
    rcases hb' with h | h
    · exact Nat.ne_of_lt (Nat.lt_succ_of_lt (hf0 b h))
    · subst h
      exact Nat.ne_of_lt (Nat.lt_succ_self _)
  have hf2 : ∀ b ∈ (bs0 ++ [(n0, t, c)]) ++ [(n0 + 1, t, c)],
      b.1 ≠ n0 + 1 + 1 := by
    intro b hb'
    simp only [List.mem_append, List.mem_singleton] at hb'
    rcases hb' with (h | h) | h
    · exact Nat.ne_of_lt (Nat.lt_succ_of_lt (Nat.lt_succ_of_lt (hf0 b h)))
    · subst h
      exact Nat.ne_of_lt (Nat.lt_succ_of_lt (Nat.lt_succ_self _))
    · subst h
      exact Nat.ne_of_lt (Nat.lt_succ_self _)
  rw [hheal]
  rw [c5_step cfg env 3 2 1 files0 bs0 cb0 n0 tr0 [] po t c nc rfl hplan
    htarget hgen hread0 happly hast hfailed hrestore
    (fun b hb' => Nat.ne_of_lt (hf0 b hb'))]
  rw [c5_step cfg env 2 1 2 (setAssoc (setAssoc files0 t nc) t c)
    (bs0 ++ [(n0, t, c)]) none (n0 + 1)
    (tr0 ++ [Event.backupCreated n0 t, Event.fileWritten t nc,
      Event.testsRan, Event.fileRestored t])
    ([] ++ [c5Record env.tests 1]) po t c nc rfl hplan htarget hgen
    (lookupStr_setAssoc (setAssoc files0 t nc) t c) happly hast hfailed
    hrestore hf1]
  rw [c5_step cfg env 1 0 3
    (setAssoc (setAssoc (setAssoc (setAssoc files0 t nc) t c) t nc) t c)
    ((bs0 ++ [(n0, t, c)]) ++ [(n0 + 1, t, c)]) none (n0 + 1 + 1)
    ((tr0 ++ [Event.backupCreated n0 t, Event.fileWritten t nc,
      Event.testsRan, Event.fileRestored t]) ++
     [Event.backupCreated (n0 + 1) t, Event.fileWritten t nc,
      Event.testsRan, Event.fileRestored t])
    (([] ++ [c5Record env.tests 1]) ++ [c5Record env.tests 2]) po t c nc rfl
    hplan htarget hgen
    (lookupStr_setAssoc (setAssoc (setAssoc (setAssoc files0 t nc) t c) t nc) t c)
    happly hast hfailed hrestore hf2]
  refine ⟨rfl, by simp [healLoop], ?_, ?_, ?_⟩
  · intro r hr
    simp only [healLoop, List.nil_append, List.mem_append,
      List.mem_singleton] at hr
    rcases hr with (h | h) | h <;> subst h <;> rfl
  · exact lookupStr_setAssoc _ t c
  · simp [healLoop]

/-- C5 witness: the exhaustion theorem instantiated with the §8 scenario
patch, an always-RETRY tester (one failing test), and `maxAttempts = 3`. -/
theorem c5_retry_exhaustion_witness :
    applyPatchToString "a\ndef f():\nb\n"
      "@@ -2,1 +2,3 @@\n def f():\n+    x = 1\n+    y = 2\n" =
      some "a\ndef f():\n    x = 1\n    y = 2\nb\n" ∧
    (heal ⟨3, 25, 9/10, fun _ => true⟩
      (fun _ => ⟨⟨some "t.py", "fix", "bug"⟩,
        Except.ok ⟨"@@ -2,1 +2,3 @@\n def f():\n+    x = 1\n+    y = 2\n", ⟨3⟩⟩,
        ⟨1, 0, 1⟩, Except.error "no llm", true⟩) ["bug"]
      (PAState.mk [("t.py", "a\ndef f():\nb\n")] [] none 0 [])).2.status =
      "MAX_ATTEMPTS_REACHED" ∧
    (heal ⟨3, 25, 9/10, fun _ => true⟩
      (fun _ => ⟨⟨some "t.py", "fix", "bug"⟩,
        Except.ok ⟨"@@ -2,1 +2,3 @@\n def f():\n+    x = 1\n+    y = 2\n", ⟨3⟩⟩,
        ⟨1, 0, 1⟩, Except.error "no llm", true⟩) ["bug"]
      (PAState.mk [("t.py", "a\ndef f():\nb\n")] [] none 0 [])).2.attempts.length =
      3 ∧
    readFile (heal ⟨3, 25, 9/10, fun _ => true⟩
      (fun _ => ⟨⟨some "t.py", "fix", "bug"⟩,
        Except.ok ⟨"@@ -2,1 +2,3 @@\n def f():\n+    x = 1\n+    y = 2\n", ⟨3⟩⟩,
        ⟨1, 0, 1⟩, Except.error "no llm", true⟩) ["bug"]
      (PAState.mk [("t.py", "a\ndef f():\nb\n")] [] none 0 [])).1 "t.py" =
      some "a\ndef f():\nb\n" := by
  have h := c5_retry_exhaustion ⟨3, 25, 9/10, fun _ => true⟩
    ⟨⟨some "t.py", "fix", "bug"⟩,
      Except.ok ⟨"@@ -2,1 +2,3 @@\n def f():\n+    x = 1\n+    y = 2\n", ⟨3⟩⟩,
      ⟨1, 0, 1⟩, Except.error "no llm", true⟩
    (PAState.mk [("t.py", "a\ndef f():\nb\n")] [] none 0 [])
    ⟨"@@ -2,1 +2,3 @@\n def f():\n+    x = 1\n+    y = 2\n", ⟨3⟩⟩
    "t.py" "a\ndef f():\nb\n" "a\ndef f():\n    x = 1\n    y = 2\nb\n"
    rfl (by decide) rfl rfl (by decide) (by decide) rfl (by decide) rfl
    (by intro b hb; simp at hb)
  exact ⟨by decide, h.1, h.2.1, h.2.2.2.1⟩

/-- One atomic step of the `GitAutoHealer` resolution code on the shared
`pending_approvals`/`approval_timers` state.  The granularity follows the
source: each step is one CPython-atomic operation, but nothing makes the
whole sequence atomic — there is no lock anywhere in
`git_auto_healer.py`. -/
inductive RStep where
  | check          -- the `run_id in/not in pending_approvals` guard (201, 215)
  | cancelTimer    -- timer cancel and removal (222-224)
  | commitPush     -- commit then push (243-253)
  | removePending  -- `del self.pending_approvals[run_id]` (266)
  deriving DecidableEq, Repr

/-- Shared state for one ticket (`run_id`): is it still pending, is its
timer still armed, and how many commit-and-push resolutions have been
performed for it. -/
structure RaceState where
  pending : Bool
  timerArmed : Bool
  commits : Nat
  deriving DecidableEq, Repr

/-- Run a thread to completion with no interleaving.  A failed `check`
aborts the rest of the thread — the early `return` of `Run not found`
(215-217) / `not found in pending approvals` (201-203): the losing side
performs nothing further. -/
def runThread : RaceState → List RStep → RaceState
  | s, [] => s
  | s, RStep.check :: rest => if s.pending then runThread s rest else s
  | s, RStep.cancelTimer :: rest => runThread { s with timerArmed := false } rest
  | s, RStep.commitPush :: rest => runThread { s with commits := s.commits + 1 } rest
  | s, RStep.removePending :: rest => runThread { s with pending := false } rest

/-- Execute one step of a thread, returning the new shared state and the
thread's remaining program (empty after a failed `check`). -/
def stepThread : RaceState → List RStep → RaceState × List RStep
  | s, [] => (s, [])
  | s, RStep.check :: rest => if s.pending then (s, rest) else (s, [])
  | s, RStep.cancelTimer :: rest => ({ s with timerArmed := false }, rest)
  | s, RStep.commitPush :: rest => ({ s with commits := s.commits + 1 }, rest)
  | s, RStep.removePending :: rest => ({ s with pending := false }, rest)

/-- Interleave two threads under a schedule (`true` steps the first
thread); when the schedule runs out, the remainders run to completion,
first thread first. -/
def runSched : RaceState → List RStep → List RStep → List Bool → RaceState
  | s, t1, t2, [] => runThread (runThread s t1) t2
  | s, t1, t2, true :: sch =>
    match stepThread s t1 with
    | (s', t1') => runSched s' t1' t2 sch
  | s, t1, t2, false :: sch =>
    match stepThread s t2 with
    | (s', t2') => runSched s' t1 t2' sch

/-- `GitAutoHealer._auto_push_after_timeout` (git_auto_healer.py:198-210):
its own membership check at 201, then the body of `approve_and_push`
(membership check 215, timer cancel 222-224, commit-and-push 239-253,
delete from pending 266). -/
def timerThread : List RStep :=
  [RStep.check, RStep.check, RStep.cancelTimer, RStep.commitPush,
   RStep.removePending]

/-- A concurrent manual `approve_and_push(run_id, approved=True)`
(git_auto_healer.py:212-273). -/
def manualThread : List RStep :=
  [RStep.check, RStep.cancelTimer, RStep.commitPush, RStep.removePending]

/-- C1 counterexample: the pending check and the transition out of pending
are not indivisible.  Under the interleaving in which both the timer
callback and the manual approval pass their membership checks before
either deletes the ticket, BOTH sides commit and push: two resolutions are
recorded for the same ticket. -/
theorem c1_counterexample :
    (runSched ⟨true, true, 0⟩ timerThread manualThread
      [true, true, false, true, true, true, false, false, false]).commits = 2 ∧
    (runSched ⟨true, true, 0⟩ timerThread manualThread
      [true, true, false, true, true, true, false, false, false]).pending =
      false := by decide

/-- C1 amended: resolution is guarded only by a non-atomic membership check
on `pending_approvals` followed much later by the deletion; there is no
lock or compare-and-set.  Only when the timeout callback and the manual
resolution are serialized does exactly one of them win — the loser's check
then fails and it performs no action beyond reporting not-found — while an
interleaving lets both commit (see the counterexample). -/
theorem c1_amended_serialized_once :
    (runThread (runThread ⟨true, true, 0⟩ timerThread) manualThread).commits =
      1 ∧
    (runThread (runThread ⟨true, true, 0⟩ manualThread) timerThread).commits =
      1 ∧
    (runThread (runThread ⟨true, true, 0⟩ timerThread) manualThread).pending =
      false ∧
    (runThread (runThread ⟨true, true, 0⟩ manualThread) timerThread).pending =
      false := by decide
